import Mathlib

/-!
Shallow embedding of the JWT demo server (src/server.js, plus the earlier
draft variant src/unnamed/part_000) and proofs about it.

Modelling conventions:
* Times are naturals (seconds).  An operation that consults the clock takes
  the current time as an explicit argument.
* Token strings are opaque to the server code, which only hands them to the
  jsonwebtoken library, stores them in a list, and compares them with
  string equality.  They are therefore embedded as the inductive TokenStr:
  a signed token remembers exactly the data the codec put into it, and
  garbage covers every string that is not a token produced by sign.
* Missing JavaScript values (undefined / null) are embedded as none of an
  Option type.
-/

/-- Claims payload embedded in a token.  In the source this is the
userObject, an object with a single username field. -/
structure Claims where
  username : String
deriving DecidableEq

/-- Modelled from the spec: the Token Codec (spec 4.1).  In the source the
codec is the external jsonwebtoken library (jwt.sign / jwt.verify), whose
implementation is not part of this repository; the spec describes its
contract.  A token is a deterministic function of (claims, secret key,
expiration, issue time); garbage stands for any string that was never
produced by sign. -/
inductive TokenStr
  | signed (claims : Claims) (iat : Nat) (exp : Option Nat) (secret : String)
  | garbage (s : String)
deriving DecidableEq

/-- Errors the codec can report on verification (spec 4.1 / 7). -/
inductive VerifyError
  | Expired
  | BadSignature
  | MalformedToken
deriving DecidableEq

/-- Result of Token Codec.verify. -/
inductive VerifyResult
  | ok (claims : Claims)
  | error (e : VerifyError)
deriving DecidableEq

/-- Modelled from the spec: jwt.sign(claims, secret, options) at issue time
iat.  If options carry expiresIn = d the token expires at iat + d; with no
expiresIn the token carries no expiration (spec 4.1). -/
def sign (claims : Claims) (secret : String) (expiresIn : Option Nat)
    (iat : Nat) : TokenStr :=
  .signed claims iat (expiresIn.map (fun d => iat + d)) secret

/-- Modelled from the spec: jwt.verify(token, secret) at current time now
(spec 4.1).  A string that is not a token fails with MalformedToken; a
signature made with a different key fails with BadSignature; an expiration
that is not in the future fails with Expired (jsonwebtoken expires a token
as soon as the current time reaches exp); otherwise the original claims are
returned unmodified. -/
def verify (t : TokenStr) (secret : String) (now : Nat) : VerifyResult :=
  match t with
  | .garbage _ => .error .MalformedToken
  | .signed claims _ exp s =>
    if s ≠ secret then .error .BadSignature
    else
      match exp with
      | none => .ok claims
      | some e => if e ≤ now then .error .Expired else .ok claims

/-- The access-token lifetime used by generateAccessToken: expiresIn: 15s
(src/server.js line 108). -/
def accessTTL : Nat := 15

/-- generateAccessToken (src/server.js lines 107-109): sign the user object
with the access secret and a 15 second expiration. -/
def generateAccessToken (userObject : Claims) (accessSecret : String)
    (now : Nat) : TokenStr :=
  sign userObject accessSecret (some accessTTL) now

/-- The Revocation Store state: refreshTokenList (src/server.js line 65), a
list of token strings. -/
abbrev Store := List TokenStr

/-- register: refreshTokenList.push(refreshToken) (src/server.js line 151)
appends at the end. -/
def register (store : Store) (t : TokenStr) : Store :=
  store ++ [t]

/-- isActive: refreshTokenList.includes(refreshToken)
(src/server.js line 168). -/
def isActive (store : Store) (t : TokenStr) : Bool :=
  decide (t ∈ store)

/-- revoke: the filter of refreshTokenList keeping the tokens that differ
from R (src/server.js line 188) removes every copy of R. -/
def revoke (store : Store) (t : TokenStr) : Store :=
  store.filter (fun x => decide (x ≠ t))

/-- Result of the POST /login handler: the JSON body
(accessToken, refreshToken) plus the updated refreshTokenList. -/
structure LoginResult where
  accessToken : TokenStr
  refreshToken : TokenStr
  newStore : Store
deriving DecidableEq

/-- POST /login handler (src/server.js lines 126-155): build the user
object from the posted username, sign an access token via
generateAccessToken, sign a refresh token with the refresh secret and no
expiration, push the refresh token into refreshTokenList, and return both
tokens. -/
def login (store : Store) (accessSecret refreshSecret : String) (now : Nat)
    (username : String) : LoginResult :=
  let userObject : Claims := ⟨username⟩
  let accessToken := generateAccessToken userObject accessSecret now
  let refreshToken := sign userObject refreshSecret none now
  { accessToken := accessToken
    refreshToken := refreshToken
    newStore := register store refreshToken }

/-- Result of the POST /createtoken (renewal) handler. -/
inductive RenewResult
  | missingToken
  | notRegistered
  | verifyFailed
  | ok (accessToken : TokenStr)
deriving DecidableEq

/-- POST /createtoken handler (src/server.js lines 160-180): 401 when the
body carries no token, 403 when the token is not in refreshTokenList
(checked with includes before any call to jwt.verify), 403 when
verification fails, otherwise a fresh access token minted from the
verified username. -/
def createtoken (store : Store) (accessSecret refreshSecret : String)
    (now : Nat) (body : Option TokenStr) : RenewResult :=
  match body with
  | none => .missingToken
  | some refreshToken =>
    if isActive store refreshToken = false then .notRegistered
    else
      match verify refreshToken refreshSecret now with
      | .error _ => .verifyFailed
      | .ok data => .ok (generateAccessToken ⟨data.username⟩ accessSecret now)

/-- DELETE /logout handler (src/server.js lines 185-192): filter the
token out of refreshTokenList and answer 204 unconditionally.  When the
body carries no token the filter compares every stored string with
undefined and keeps all of them. -/
def logoutHandler (store : Store) (body : Option TokenStr) : Store × Nat :=
  match body with
  | none => (store, 204)
  | some t => (revoke store t, 204)

/-- JavaScript s.split(' ') on the character list: splitting on every
single space character, keeping empty pieces. -/
def splitChars : List Char → List (List Char)
  | [] => [[]]
  | c :: rest =>
    if c = ' ' then [] :: splitChars rest
    else
      match splitChars rest with
      | [] => [[c]]
      | w :: ws => (c :: w) :: ws

/-- JavaScript s.split(' ') on strings. -/
def splitOnSpace (s : String) : List String :=
  (splitChars s.data).map (fun l => ⟨l⟩)

/-- Token extraction in authenticateToken (src/server.js lines 74-78):
authHeader and-and authHeader.split(' ')[1].  With no header the result is
undefined (none).  With the empty header the JavaScript and-and returns its
falsy left operand, so the extracted token is the empty string, not
undefined.  Otherwise the result is the second space-separated piece, or
undefined when there is none. -/
def extractToken (authHeader : Option String) : Option String :=
  match authHeader with
  | none => none
  | some h => if h = "" then some h else (splitOnSpace h)[1]?

/-- An inbound request as the guard sees it: its authorization header. -/
structure Request where
  authorization : Option String
deriving DecidableEq

/-- Outcome of the authenticateToken middleware of src/server.js:
noToken is res.status(401), invalidToken is res.status(403), and
proceed u is req.user = u followed by next(). -/
inductive GuardOutcome
  | noToken
  | invalidToken
  | proceed (user : Claims)
deriving DecidableEq

/-- authenticateToken (src/server.js lines 71-100).  The decode parameter
is the bridge from opaque token strings to their embedded value: the guard
itself never inspects the string, it hands it to jwt.verify. -/
def authenticateToken (decode : String → TokenStr) (accessSecret : String)
    (now : Nat) (req : Request) : GuardOutcome :=
  match extractToken req.authorization with
  | none => .noToken
  | some t =>
    match verify (decode t) accessSecret now with
    | .error _ => .invalidToken
    | .ok data => .proceed data

/-- A header that is present but not of the two-part form
scheme SP token: it has no second space-separated piece. -/
abbrev malformedHeader (h : String) : Prop :=
  (splitOnSpace h)[1]? = none

/-- Outcome of the draft authenticateToken of src/unnamed/part_000
(lines 27-43).  There the token === null check can never fire (the
extracted value is undefined or a string, never null), jwt.verify is called
without a callback so a failed verification throws (threw), and on a
successful verification the function simply returns: no req.user is set,
next() is never called, and no response is sent (fallThrough). -/
inductive Guard0Outcome
  | threw
  | fallThrough (decoded : Claims)
deriving DecidableEq

/-- Draft authenticateToken of src/unnamed/part_000: same extraction as the
final version; an absent extraction makes jwt.verify throw on undefined, a
failing verification throws, and a successful one falls through without
forwarding the request. -/
def authenticateToken0 (decode : String → TokenStr) (accessSecret : String)
    (now : Nat) (req : Request) : Guard0Outcome :=
  match extractToken req.authorization with
  | none => .threw
  | some t =>
    match verify (decode t) accessSecret now with
    | .error _ => .threw
    | .ok data => .fallThrough data

/-- A post record from the in-memory posts array. -/
structure Post where
  username : String
  title : String
deriving DecidableEq

/-- The posts array of src/server.js (lines 49-62). -/
def posts : List Post :=
  [⟨"Kyle", "Post 1"⟩, ⟨"Jim", "Post 2"⟩, ⟨"Ishan", "Post 3"⟩]

/-- Outcome of an HTTP route: an error status or a JSON body. -/
inductive RouteResult (α : Type)
  | status (code : Nat)
  | ok (body : α)
deriving DecidableEq

/-- GET /posts handler behind authenticateToken (src/server.js lines
116-119): the guard answers 401 or 403, and on proceed the handler returns
the posts whose username equals req.user.username. -/
def getPosts (decode : String → TokenStr) (accessSecret : String)
    (now : Nat) (req : Request) : RouteResult (List Post) :=
  match authenticateToken decode accessSecret now req with
  | .noToken => .status 401
  | .invalidToken => .status 403
  | .proceed user => .ok (posts.filter (fun p => p.username == user.username))

/-- C3: for all claims C and every secret key S, verifying a token produced
by sign(C, S, no options) with the same secret S succeeds and returns
exactly the claims C that were signed, unmodified. -/
theorem sign_verify_roundtrip (c : Claims) (s : String) (iat now : Nat) :
    verify (sign c s none iat) s now = .ok c := by
  simp [sign, verify]

/-- C5: a token signed without expiresIn never fails with Expired at any
later verification time under any key; a token signed with expiresIn = d at
time iat verifies Ok with the signing key while the duration has not
elapsed, and returns Expired once the expiration time has been reached. -/
theorem expiration_semantics (c : Claims) (s s2 : String) (iat d now : Nat) :
    verify (sign c s none iat) s2 now ≠ .error .Expired
  ∧ (now < iat + d → verify (sign c s (some d) iat) s now = .ok c)
  ∧ (iat + d ≤ now → verify (sign c s (some d) iat) s now = .error .Expired) := by
  refine ⟨?_, ?_, ?_⟩
  · by_cases h : s = s2 <;> simp [sign, verify, h]
  · intro h
    simp [sign, verify, Nat.not_le.mpr h]
  · intro h
    simp [sign, verify, h]

/-- Witness for C5 at the spec's one-second example: a token with
expiresIn = 1 signed at time 0 verifies Ok at time 0 and is Expired at
time 2. -/
theorem expiration_semantics_witness :
    verify (sign ⟨"Kyle"⟩ "k" (some 1) 0) "k" 0 = .ok ⟨"Kyle"⟩
  ∧ verify (sign ⟨"Kyle"⟩ "k" (some 1) 0) "k" 2 = .error .Expired :=
  ⟨(expiration_semantics ⟨"Kyle"⟩ "k" "k" 0 1 0).2.1 (by decide),
   (expiration_semantics ⟨"Kyle"⟩ "k" "k" 0 1 2).2.2 (by decide)⟩

/-- C1: when the presented refresh token is not in refreshTokenList the
renewal handler answers notRegistered (403), whatever the token is — in
particular also for a token that would verify under the refresh secret,
since the result does not depend on the verification outcome. -/
theorem renew_unregistered_rejected (store : Store)
    (accessSecret refreshSecret : String) (now : Nat) (rt : TokenStr)
    (h : rt ∉ store) :
    createtoken store accessSecret refreshSecret now (some rt)
      = .notRegistered := by
  simp [createtoken, isActive, h]

/-- Witness for C1: a refresh token correctly signed with the refresh
secret, hence verifying successfully, is still rejected as notRegistered
when the store does not contain it. -/
theorem renew_unregistered_rejected_witness :
    verify (sign ⟨"Kyle"⟩ "r" none 0) "r" 5 = .ok ⟨"Kyle"⟩
  ∧ createtoken [] "a" "r" 5 (some (sign ⟨"Kyle"⟩ "r" none 0))
      = .notRegistered :=
  ⟨by decide,
   renew_unregistered_rejected [] "a" "r" 5 (sign ⟨"Kyle"⟩ "r" none 0)
     (by decide)⟩

/-- C4: login signs the access token with the access secret and the
15-second TTL, signs the refresh token with the (distinct) refresh secret
and no expiration, registers the refresh token in the store, and returns
both tokens. -/
theorem login_issues_and_registers (store : Store)
    (accessSecret refreshSecret : String) (now : Nat) (u : String) :
    (login store accessSecret refreshSecret now u).accessToken
        = sign ⟨u⟩ accessSecret (some accessTTL) now
  ∧ (login store accessSecret refreshSecret now u).refreshToken
        = sign ⟨u⟩ refreshSecret none now
  ∧ (login store accessSecret refreshSecret now u).newStore
        = register store (sign ⟨u⟩ refreshSecret none now)
  ∧ isActive (login store accessSecret refreshSecret now u).newStore
        (login store accessSecret refreshSecret now u).refreshToken = true := by
  refine ⟨rfl, rfl, rfl, ?_⟩
  simp [login, register, isActive, generateAccessToken]

/-- C7: after register(R) the token is active; after a subsequent revoke(R)
it is inactive; revoking a token absent from the store is a no-op; the
logout handler always answers 204 and is idempotent. -/
theorem revocation_store_semantics (store : Store) (r : TokenStr) :
    isActive (register store r) r = true
  ∧ isActive (revoke (register store r) r) r = false
  ∧ (r ∉ store → revoke store r = store)
  ∧ revoke (revoke store r) r = revoke store r
  ∧ (∀ body, (logoutHandler store body).2 = 204)
  ∧ (logoutHandler (logoutHandler store (some r)).1 (some r)).1
        = (logoutHandler store (some r)).1 := by
  have hidem : revoke (revoke store r) r = revoke store r := by
    simp [revoke, List.filter_filter]
  refine ⟨?_, ?_, ?_, hidem, ?_, ?_⟩
  · simp [isActive, register]
  · simp [isActive, revoke, register, List.mem_filter]
  · intro h
    refine List.filter_eq_self.mpr ?_
    intro a ha
    simp only [decide_eq_true_eq]
    intro he
    exact h (he ▸ ha)
  · intro body
    cases body <;> rfl
  · simpa [logoutHandler] using hidem

/-- Witness for C7: revoking a token absent from the empty store leaves it
unchanged, and a freshly registered token is active. -/
theorem revocation_store_semantics_witness :
    revoke [] (TokenStr.garbage "r") = []
  ∧ isActive (register [] (TokenStr.garbage "r")) (TokenStr.garbage "r")
      = true :=
  ⟨(revocation_store_semantics [] (TokenStr.garbage "r")).2.2.1 (by decide),
   (revocation_store_semantics [] (TokenStr.garbage "r")).1⟩

/-- C8 counterexample: registering a token that is already in the store
does not leave the store unchanged — the push appends a duplicate entry. -/
theorem register_not_noop_cex :
    TokenStr.garbage "r" ∈ [TokenStr.garbage "r"]
  ∧ register [TokenStr.garbage "r"] (TokenStr.garbage "r")
      ≠ [TokenStr.garbage "r"] := by
  decide

/-- C8 amended: register appends unconditionally, so re-registering a token
already in the active set appends a duplicate entry; the membership query
of every token is nevertheless unchanged, and a single revoke removes all
copies at once. -/
theorem register_duplicate_semantics (store : Store) (r : TokenStr)
    (h : r ∈ store) :
    register store r = store ++ [r]
  ∧ (∀ t, isActive (register store r) t = isActive store t)
  ∧ isActive (revoke (register store r) r) r = false := by
  refine ⟨rfl, ?_, ?_⟩
  · intro t
    have hiff : t ∈ register store r ↔ t ∈ store := by
      simp only [register, List.mem_append, List.mem_singleton]
      exact or_iff_left_iff_imp.mpr (fun ht => ht ▸ h)
    simp [isActive, hiff]
  · simp [isActive, revoke, register, List.mem_filter]

/-- Witness for the amended C8: re-registering the sole stored token yields
a two-copy store, and one revoke deactivates the token. -/
theorem register_duplicate_semantics_witness :
    register [TokenStr.garbage "r"] (TokenStr.garbage "r")
      = [TokenStr.garbage "r", TokenStr.garbage "r"]
  ∧ isActive
      (revoke (register [TokenStr.garbage "r"] (TokenStr.garbage "r"))
        (TokenStr.garbage "r")) (TokenStr.garbage "r") = false :=
  ⟨(register_duplicate_semantics [TokenStr.garbage "r"] (TokenStr.garbage "r")
      (by decide)).1.trans (by decide),
   (register_duplicate_semantics [TokenStr.garbage "r"] (TokenStr.garbage "r")
      (by decide)).2.2⟩

/-- C10: refresh-token minting is deterministic: two logins with the same
username at the same issue time mint the identical refresh token, and a
single logout with that token string removes every matching entry, so the
token is inactive for both sessions at once. -/
theorem refresh_token_deterministic (store : Store)
    (accessSecret refreshSecret : String) (now : Nat) (u : String) :
    (login (login store accessSecret refreshSecret now u).newStore
        accessSecret refreshSecret now u).refreshToken
      = (login store accessSecret refreshSecret now u).refreshToken
  ∧ isActive
      (logoutHandler
        (login (login store accessSecret refreshSecret now u).newStore
            accessSecret refreshSecret now u).newStore
        (some (login store accessSecret refreshSecret now u).refreshToken)).1
      (login store accessSecret refreshSecret now u).refreshToken = false := by
  refine ⟨rfl, ?_⟩
  simp [login, logoutHandler, register, revoke, isActive, List.mem_filter]

/-- C2 counterexample: the empty authorization header is present but
malformed (it has no second space-separated piece), yet the guard does not
answer with the 401 noToken outcome: the JavaScript and-and passes the
empty string on to verification, which fails, so the guard answers 403
invalidToken. -/
theorem guard_empty_header_cex :
    malformedHeader ""
  ∧ authenticateToken (fun s => TokenStr.garbage s) "k" 0 ⟨some ""⟩
      ≠ .noToken
  ∧ authenticateToken (fun s => TokenStr.garbage s) "k" 0 ⟨some ""⟩
      = .invalidToken := by
  refine ⟨by decide, by decide, by decide⟩

/-- C2 amended: the guard answers noToken exactly when the header is absent
or is a nonempty malformed string (no second space-separated piece) — the
empty header instead flows into verification; and whenever a token is
extracted and verification fails, the guard answers invalidToken, the same
outcome for all three verification errors. -/
theorem guard_outcomes (decode : String → TokenStr) (accessSecret : String)
    (now : Nat) (req : Request) :
    (authenticateToken decode accessSecret now req = .noToken ↔
      (req.authorization = none ∨
        ∃ h, req.authorization = some h ∧ h ≠ "" ∧ malformedHeader h))
  ∧ (∀ t e, extractToken req.authorization = some t →
      verify (decode t) accessSecret now = .error e →
      authenticateToken decode accessSecret now req = .invalidToken) := by
  constructor
  · cases hauth : req.authorization with
    | none => simp [authenticateToken, extractToken, hauth]
    | some h =>
      by_cases hemp : h = ""
      · subst hemp
        cases hv : verify (decode "") accessSecret now <;>
          simp [authenticateToken, extractToken, hauth, hv]
      · cases hs : (splitOnSpace h)[1]? with
        | none =>
          simp [authenticateToken, extractToken, hauth, hemp, hs,
            malformedHeader]
          simpa using hs
        | some t =>
          have hlt : 1 < (splitOnSpace h).length := by
            by_contra hle
            push_neg at hle
            rw [List.getElem?_eq_none hle] at hs
            exact Option.noConfusion hs
          cases hv : verify (decode t) accessSecret now <;>
            simp [authenticateToken, extractToken, hauth, hemp, hs, hv,
              malformedHeader, hlt]
  · intro t e hext hv
    simp [authenticateToken, hext, hv]

/-- Witness for the amended C2: the absent header is answered with noToken,
and a well-formed header carrying a garbage token with invalidToken. -/
theorem guard_outcomes_witness :
    authenticateToken (fun s => TokenStr.garbage s) "k" 0 ⟨none⟩ = .noToken
  ∧ authenticateToken (fun s => TokenStr.garbage s) "k" 0 ⟨some "Bearer x"⟩
      = .invalidToken :=
  ⟨(guard_outcomes (fun s => TokenStr.garbage s) "k" 0 ⟨none⟩).1.mpr
      (Or.inl rfl),
   (guard_outcomes (fun s => TokenStr.garbage s) "k" 0 ⟨some "Bearer x"⟩).2
      "x" .MalformedToken (by decide) rfl⟩

/-- C6: on a successfully verifying token the server.js guard attaches the
decoded claims and proceeds, but the part_000 draft guard falls through: it
neither sets req.user nor calls next(), leaving the request unanswered. -/
theorem guard_success_divergence (decode : String → TokenStr)
    (accessSecret : String) (now : Nat) (req : Request) (t : String)
    (c : Claims) (hext : extractToken req.authorization = some t)
    (hv : verify (decode t) accessSecret now = .ok c) :
    authenticateToken decode accessSecret now req = .proceed c
  ∧ authenticateToken0 decode accessSecret now req = .fallThrough c := by
  constructor <;> simp [authenticateToken, authenticateToken0, hext, hv]

/-- Witness for C6 at a concrete request whose token verifies: server.js
proceeds with the claims, part_000 falls through with them. -/
theorem guard_success_divergence_witness :
    authenticateToken (fun _ => sign ⟨"Kyle"⟩ "k" none 0) "k" 0
        ⟨some "Bearer x"⟩ = .proceed ⟨"Kyle"⟩
  ∧ authenticateToken0 (fun _ => sign ⟨"Kyle"⟩ "k" none 0) "k" 0
        ⟨some "Bearer x"⟩ = .fallThrough ⟨"Kyle"⟩ :=
  guard_success_divergence (fun _ => sign ⟨"Kyle"⟩ "k" none 0) "k" 0
    ⟨some "Bearer x"⟩ "x" ⟨"Kyle"⟩ (by decide) rfl

/-- C9: the protected posts route answers 401 when no token is extracted,
403 when verification of the extracted token fails, and on success exactly
the posts whose username equals the authenticated username. -/
theorem getPosts_spec (decode : String → TokenStr) (accessSecret : String)
    (now : Nat) (req : Request) :
    (extractToken req.authorization = none →
      getPosts decode accessSecret now req = .status 401)
  ∧ (∀ t e, extractToken req.authorization = some t →
      verify (decode t) accessSecret now = .error e →
      getPosts decode accessSecret now req = .status 403)
  ∧ (∀ t c, extractToken req.authorization = some t →
      verify (decode t) accessSecret now = .ok c →
      getPosts decode accessSecret now req
        = .ok (posts.filter (fun p => p.username == c.username))
      ∧ ∀ p, p ∈ posts.filter (fun p => p.username == c.username) ↔
          (p ∈ posts ∧ p.username = c.username)) := by
  refine ⟨?_, ?_, ?_⟩
  · intro hext
    simp [getPosts, authenticateToken, hext]
  · intro t e hext hv
    simp [getPosts, authenticateToken, hext, hv]
  · intro t c hext hv
    refine ⟨by simp [getPosts, authenticateToken, hext, hv], ?_⟩
    intro p
    simp [List.mem_filter]

/-- Witness for C9: with no header the route answers 401; with a header
whose token verifies as Kyle it returns exactly Kyle's post. -/
theorem getPosts_spec_witness :
    getPosts (fun s => TokenStr.garbage s) "k" 0 ⟨none⟩ = .status 401
  ∧ getPosts (fun _ => sign ⟨"Kyle"⟩ "k" none 0) "k" 0 ⟨some "Bearer x"⟩
      = .ok [⟨"Kyle", "Post 1"⟩] := by
  refine ⟨(getPosts_spec (fun s => TokenStr.garbage s) "k" 0 ⟨none⟩).1 rfl, ?_⟩
  have h := ((getPosts_spec (fun _ => sign ⟨"Kyle"⟩ "k" none 0) "k" 0
      ⟨some "Bearer x"⟩).2.2 "x" ⟨"Kyle"⟩ (by decide) rfl).1
  rw [h]
  decide
